import Mathlib

/-!
Verification of the reconciliation modules of the LiteLLM Ansible collection
(`litellm_team`, `litellm_virtual_key`, `litellm_endpoint`, `litellm_model`).
Each Python module is shallowly embedded: HTTP responses are supplied through
an environment record, and each `main` becomes a pure function returning
the reported result (or the failure message passed to `fail_json`) together
with the list of write requests (POST create/update/delete) it issued.
-/

namespace LitellmSpec

/-- JSON values as produced by `response.json()`.  Numbers are rationals so
that Python numeric equality (`1 == 1.0`) is exact equality here. -/
inductive JVal : Type
  | null
  | bool (b : Bool)
  | num (q : Rat)
  | str (s : String)
  | arr (xs : List JVal)
  | obj (kvs : List (String × JVal))

mutual

/-- Python `==` on parsed JSON values: structural on scalars and lists,
order-independent on objects (Python dict equality). -/
def jeq : JVal → JVal → Bool
  | .null, .null => true
  | .bool a, .bool b => a == b
  | .num a, .num b => a == b
  | .str a, .str b => a == b
  | .arr xs, .arr ys => jeqArr xs ys
  | .obj xs, .obj ys => xs.length == ys.length && jeqObjSub xs ys
  | _, _ => false

/-- Elementwise equality of JSON arrays (Python list `==`). -/
def jeqArr : List JVal → List JVal → Bool
  | [], [] => true
  | x :: xs, y :: ys => jeq x y && jeqArr xs ys
  | _, _ => false

/-- Every binding of the first object occurs (key-wise) in the second with an
equal value. -/
def jeqObjSub : List (String × JVal) → List (String × JVal) → Bool
  | [], _ => true
  | (k, v) :: rest, ys => jeqFind k v ys && jeqObjSub rest ys

/-- Look up `k` in an association list and compare the bound value with `v`. -/
def jeqFind : String → JVal → List (String × JVal) → Bool
  | _, _, [] => false
  | k, v, (k2, v2) :: ys => if k == k2 then jeq v v2 else jeqFind k v ys

end

/-- Python `dict.get(k)`: the value bound to `k`, if any. -/
def jlookup (k : String) : List (String × JVal) → Option JVal
  | [] => none
  | (k2, v) :: rest => if k == k2 then some v else jlookup k rest

/-- Python truthiness of an optional string parameter (`if name:`):
`None` and the empty string are falsy. -/
def truthyStr : Option String → Bool
  | none => false
  | some s => !(s == "")

/-- Python truthiness of a JSON value. -/
def JVal.truthy : JVal → Bool
  | .null => false
  | .bool b => b
  | .num q => !(q == 0)
  | .str s => !(s == "")
  | .arr xs => !xs.isEmpty
  | .obj kvs => !kvs.isEmpty

/-- Python truthiness of an optional JSON value (`if metadata:`). -/
def truthyJ : Option JVal → Bool
  | none => false
  | some v => v.truthy

/-- Python truthiness of an optional list parameter (`if models:`). -/
def truthyListStr : Option (List String) → Bool
  | none => false
  | some l => !l.isEmpty

/-- Python `set(a) == set(b)` for lists of strings. -/
def setEqStr (a b : List String) : Bool :=
  a.all (fun x => b.contains x) && b.all (fun x => a.contains x)

/-- Equality of two optional JSON values under Python `==`
(`None == None` is `True`, `None == value` is `False`). -/
def jeqOpt : Option JVal → Option JVal → Bool
  | some x, some y => jeq x y
  | none, none => true
  | _, _ => false

/-- Encode an optional string as the JSON value Python would serialize
(`None` becomes `null`). -/
def jOptStr : Option String → JVal
  | some s => .str s
  | none => .null

/-- Encode a Python int as a JSON number. -/
def jInt (i : Int) : JVal := .num (i : Rat)

/-- Python `if cond: data[k] = v` — the conditional field of a wire payload built
by the payload-assembly code of the managers. -/
def pfield (cond : Bool) (k : String) (v : JVal) : List (String × JVal) :=
  if cond then [(k, v)] else []

theorem mem_pfield {c : Bool} {f k : String} {v x : JVal}
    (h : (k, x) ∈ pfield c f v) : k = f ∧ c = true := by
  unfold pfield at h
  split at h
  · simp at h
    exact ⟨h.1, by assumption⟩
  · simp at h

/-- Lifecycle intent `present` / `absent` (the `state` module parameter). -/
inductive RState : Type
  | present
  | absent
deriving DecidableEq

/-- Outcome of a point lookup (`GET /team/{id}`, `GET /key/info`): HTTP 200
with a parsed body, HTTP 404, or any other status (which `fail_json`s). -/
inductive Lookup (α : Type) : Type
  | found (x : α)
  | notFound
  | httpError (code : Nat)

/-! ## litellm_team -/

/-- A team as reported by the LiteLLM API (`current_team.get(...)` accesses;
a missing key yields `none`). -/
structure Team where
  team_id : Option String := none
  team_alias : Option String := none
  team_name : Option String := none
  metadata : Option JVal := none
  max_budget : Option Rat := none
  models : Option (List String) := none

/-- Embeds `LiteLLMTeamManager.team_needs_update`: each declared (non-`None`,
for strings non-empty) parameter is compared against the current team;
`models` is compared as a set. -/
def team_needs_update (t : Team) (name : Option String) (metadata : Option JVal)
    (max_budget : Option Rat) (models : Option (List String)) : Bool :=
  (truthyStr name && !(t.team_alias == name)) ||
  (metadata.isSome && !(jeqOpt t.metadata metadata)) ||
  (max_budget.isSome && !(t.max_budget == max_budget)) ||
  (models.isSome && !(setEqStr (t.models.getD []) (models.getD [])))

/-- Wire body of `LiteLLMTeamManager.create_team` (`POST /team/new`). -/
def createTeamPayload (name : Option String) (metadata : Option JVal)
    (max_budget : Option Rat) (models : Option (List String)) : List (String × JVal) :=
  [("team_alias", jOptStr name)]
  ++ pfield (truthyJ metadata) "metadata" (metadata.getD .null)
  ++ pfield max_budget.isSome "max_budget" (.num (max_budget.getD 0))
  ++ pfield (truthyListStr models) "models" (.arr ((models.getD []).map .str))

/-- Wire body of `LiteLLMTeamManager.update_team` (`POST /team/update`). -/
def updateTeamPayload (team_id : Option String) (name : Option String)
    (metadata : Option JVal) (max_budget : Option Rat)
    (models : Option (List String)) : List (String × JVal) :=
  [("team_id", jOptStr team_id)]
  ++ pfield (truthyStr name) "team_alias" (.str (name.getD ""))
  ++ pfield metadata.isSome "metadata" (metadata.getD .null)
  ++ pfield max_budget.isSome "max_budget" (.num (max_budget.getD 0))
  ++ pfield models.isSome "models" (.arr ((models.getD []).map .str))

/-- Write requests the team module can issue (all are POSTs). -/
inductive TeamWrite : Type
  | createT (payload : List (String × JVal))
  | updateT (payload : List (String × JVal))
  | deleteT (team_ids : List JVal)

/-- Module parameters of `litellm_team` (after Ansible argument parsing;
`metadata` has module default `{}`). -/
structure TeamParams where
  team_id : Option String := none
  name : Option String := none
  metadata : Option JVal := some (.obj [])
  max_budget : Option Rat := none
  models : Option (List String) := none
  state : RState := .present
  check_mode : Bool := false

/-- Remote responses the team module may receive. -/
structure TeamEnv where
  byId : String → Lookup Team
  listing : List Team := []
  listingOk : Bool := true
  createResp : Team := {}
  createOk : Bool := true
  updateResp : Team := {}
  updateOk : Bool := true
  deleteOk : Bool := true

/-- The scan of `get_team_by_name` over a (typed) listing: first team whose
`team_alias` or `team_name` equals the requested name. -/
def resolveTeamByName (listing : List Team) (n : String) : Option Team :=
  listing.find? (fun t => t.team_alias == some n || t.team_name == some n)

/-- Identity resolution in `litellm_team.main`: by `team_id` if truthy,
else by `name` via the listing, else no lookup at all. -/
def resolveTeam (p : TeamParams) (env : TeamEnv) : Except String (Option Team) :=
  if truthyStr p.team_id then
    match env.byId (p.team_id.getD "") with
    | .found t => .ok (some t)
    | .notFound => .ok none
    | .httpError c => .error ("Errore nel recupero del team: " ++ toString c)
  else if truthyStr p.name then
    if env.listingOk then .ok (resolveTeamByName env.listing (p.name.getD ""))
    else .error "Errore nella ricerca del team"
  else .ok none

/-- Reported result of a successful `litellm_team` run (`exit_json`);
`team = none` stands for the initial `{}` placeholder. -/
structure TeamResult where
  changed : Bool
  team : Option Team
  message : Option String

/-- The decide/act part of `litellm_team.main`, given the resolved
`existing_team`. -/
def teamAct (p : TeamParams) (env : TeamEnv) (existing : Option Team) :
    Except String TeamResult × List TeamWrite :=
  match p.state with
  | .present =>
    match existing with
    | some t =>
      if team_needs_update t p.name p.metadata p.max_budget p.models then
        if p.check_mode then
          (.ok ⟨true, none, some "Team aggiornato con successo"⟩, [])
        else
          let pay := updateTeamPayload t.team_id p.name p.metadata p.max_budget p.models
          if env.updateOk then
            (.ok ⟨true, some env.updateResp, some "Team aggiornato con successo"⟩,
              [.updateT pay])
          else (.error "Errore nell\x27aggiornamento del team", [.updateT pay])
      else
        (.ok ⟨false, some t, some "Team già esistente con le configurazioni richieste"⟩, [])
    | none =>
      if p.check_mode then
        (.ok ⟨true, none, some "Team creato con successo"⟩, [])
      else
        let pay := createTeamPayload p.name p.metadata p.max_budget p.models
        if env.createOk then
          (.ok ⟨true, some env.createResp, some "Team creato con successo"⟩, [.createT pay])
        else (.error "Errore nella creazione del team", [.createT pay])
  | .absent =>
    match existing with
    | some t =>
      if p.check_mode then
        (.ok ⟨true, none, some "Team eliminato con successo"⟩, [])
      else if env.deleteOk then
        (.ok ⟨true, none, some "Team eliminato con successo"⟩, [.deleteT [jOptStr t.team_id]])
      else (.error "Errore nell\x27eliminazione del team", [.deleteT [jOptStr t.team_id]])
    | none => (.ok ⟨false, none, some "Team non trovato, nessuna azione necessaria"⟩, [])

/-- Embeds `litellm_team.main`: resolve, then decide and act; the second component
is the list of write requests issued. -/
def teamMain (p : TeamParams) (env : TeamEnv) :
    Except String TeamResult × List TeamWrite :=
  match resolveTeam p env with
  | .error e => (.error e, [])
  | .ok existing => teamAct p env existing

/-! ## litellm_virtual_key -/

/-- A virtual key as reported by the LiteLLM API. -/
structure Key where
  token : Option String := none
  key : Option String := none
  key_alias : Option String := none
  key_name : Option String := none
  team_id : Option String := none
  models : Option (List String) := none
  max_budget : Option Rat := none
  budget_duration : Option String := none
  metadata : Option JVal := none
  expires : Option String := none
  max_parallel_requests : Option Int := none
  tpm_limit : Option Int := none
  rpm_limit : Option Int := none

/-- Embeds `LiteLLMVirtualKeyManager.key_needs_update`. -/
def key_needs_update (k : Key) (key_alias team_id : Option String)
    (models : Option (List String)) (max_budget : Option Rat)
    (budget_duration : Option String) (metadata : Option JVal)
    (expires : Option String) (mpr tpm rpm : Option Int) : Bool :=
  (truthyStr key_alias && !(k.key_alias == key_alias)) ||
  (truthyStr team_id && !(k.team_id == team_id)) ||
  (models.isSome && !(setEqStr (k.models.getD []) (models.getD []))) ||
  (max_budget.isSome && !(k.max_budget == max_budget)) ||
  (truthyStr budget_duration && !(k.budget_duration == budget_duration)) ||
  (metadata.isSome && !(jeqOpt k.metadata metadata)) ||
  (truthyStr expires && !(k.expires == expires)) ||
  (mpr.isSome && !(k.max_parallel_requests == mpr)) ||
  (tpm.isSome && !(k.tpm_limit == tpm)) ||
  (rpm.isSome && !(k.rpm_limit == rpm))

/-- Wire body of `create_key` (`POST /key/generate`). -/
def createKeyPayload (key_alias team_id : Option String)
    (models : Option (List String)) (max_budget : Option Rat)
    (budget_duration : Option String) (metadata : Option JVal)
    (expires : Option String) (mpr tpm rpm : Option Int) : List (String × JVal) :=
  pfield (truthyStr key_alias) "key_alias" (.str (key_alias.getD ""))
  ++ pfield (truthyStr team_id) "team_id" (.str (team_id.getD ""))
  ++ pfield (truthyListStr models) "models" (.arr ((models.getD []).map .str))
  ++ pfield max_budget.isSome "max_budget" (.num (max_budget.getD 0))
  ++ pfield (truthyStr budget_duration) "budget_duration" (.str (budget_duration.getD ""))
  ++ pfield (truthyJ metadata) "metadata" (metadata.getD .null)
  ++ pfield (truthyStr expires) "expires" (.str (expires.getD ""))
  ++ pfield mpr.isSome "max_parallel_requests" (jInt (mpr.getD 0))
  ++ pfield tpm.isSome "tpm_limit" (jInt (tpm.getD 0))
  ++ pfield rpm.isSome "rpm_limit" (jInt (rpm.getD 0))

/-- Wire body of `update_key` (`POST /key/update`). -/
def updateKeyPayload (key_id : Option String) (key_alias team_id : Option String)
    (models : Option (List String)) (max_budget : Option Rat)
    (budget_duration : Option String) (metadata : Option JVal)
    (expires : Option String) (mpr tpm rpm : Option Int) : List (String × JVal) :=
  [("key", jOptStr key_id)]
  ++ pfield (truthyStr key_alias) "key_alias" (.str (key_alias.getD ""))
  ++ pfield (truthyStr team_id) "team_id" (.str (team_id.getD ""))
  ++ pfield models.isSome "models" (.arr ((models.getD []).map .str))
  ++ pfield max_budget.isSome "max_budget" (.num (max_budget.getD 0))
  ++ pfield (truthyStr budget_duration) "budget_duration" (.str (budget_duration.getD ""))
  ++ pfield metadata.isSome "metadata" (metadata.getD .null)
  ++ pfield (truthyStr expires) "expires" (.str (expires.getD ""))
  ++ pfield mpr.isSome "max_parallel_requests" (jInt (mpr.getD 0))
  ++ pfield tpm.isSome "tpm_limit" (jInt (tpm.getD 0))
  ++ pfield rpm.isSome "rpm_limit" (jInt (rpm.getD 0))

/-- Write requests the virtual-key module can issue. -/
inductive KeyWrite : Type
  | createK (payload : List (String × JVal))
  | updateK (payload : List (String × JVal))
  | deleteK (keys : List JVal)

/-- Module parameters of `litellm_virtual_key`. -/
structure KeyParams where
  key_id : Option String := none
  key_alias : Option String := none
  team_id : Option String := none
  models : Option (List String) := none
  max_budget : Option Rat := none
  budget_duration : Option String := none
  metadata : Option JVal := some (.obj [])
  expires : Option String := none
  max_parallel_requests : Option Int := none
  tpm_limit : Option Int := none
  rpm_limit : Option Int := none
  state : RState := .present
  check_mode : Bool := false

/-- Remote responses the virtual-key module may receive. -/
structure KeyEnv where
  byId : String → Lookup Key
  listing : List Key := []
  listingOk : Bool := true
  createResp : Key := {}
  createOk : Bool := true
  updateResp : Key := {}
  updateOk : Bool := true
  deleteOk : Bool := true

/-- Python `existing_key.get(\"token\") or existing_key.get(\"key\")` (the source
uses the `token` field when truthy, else the `key` field). -/
def keyIdOf (k : Key) : Option String :=
  if truthyStr k.token then k.token else k.key

/-- The scan of `get_key_by_alias` over a (typed) listing. -/
def resolveKeyByAlias (listing : List Key) (a : String) : Option Key :=
  listing.find? (fun k => k.key_alias == some a || k.key_name == some a)

/-- Identity resolution in `litellm_virtual_key.main`: by `key_id` if truthy,
else by `key_alias` via the listing, else no lookup at all. -/
def resolveKey (p : KeyParams) (env : KeyEnv) : Except String (Option Key) :=
  if truthyStr p.key_id then
    match env.byId (p.key_id.getD "") with
    | .found k => .ok (some k)
    | .notFound => .ok none
    | .httpError c => .error ("Errore nel recupero della key: " ++ toString c)
  else if truthyStr p.key_alias then
    if env.listingOk then .ok (resolveKeyByAlias env.listing (p.key_alias.getD ""))
    else .error "Errore nella ricerca della key"
  else .ok none

/-- Reported result of a successful `litellm_virtual_key` run. -/
structure KeyResult where
  changed : Bool
  virtual_key : Option Key
  message : Option String

/-- The decide/act part of `litellm_virtual_key.main`. -/
def keyAct (p : KeyParams) (env : KeyEnv) (existing : Option Key) :
    Except String KeyResult × List KeyWrite :=
  match p.state with
  | .present =>
    match existing with
    | some k =>
      if key_needs_update k p.key_alias p.team_id p.models p.max_budget
          p.budget_duration p.metadata p.expires p.max_parallel_requests
          p.tpm_limit p.rpm_limit then
        if p.check_mode then
          (.ok ⟨true, none, some "Virtual key aggiornata con successo"⟩, [])
        else
          let pay := updateKeyPayload (keyIdOf k) p.key_alias p.team_id p.models
            p.max_budget p.budget_duration p.metadata p.expires
            p.max_parallel_requests p.tpm_limit p.rpm_limit
          if env.updateOk then
            (.ok ⟨true, some env.updateResp, some "Virtual key aggiornata con successo"⟩,
              [.updateK pay])
          else (.error "Errore nell\x27aggiornamento della key", [.updateK pay])
      else
        (.ok ⟨false, some k, some "Virtual key già esistente con le configurazioni richieste"⟩, [])
    | none =>
      if p.check_mode then
        (.ok ⟨true, none, some "Virtual key creata con successo"⟩, [])
      else
        let pay := createKeyPayload p.key_alias p.team_id p.models p.max_budget
          p.budget_duration p.metadata p.expires p.max_parallel_requests
          p.tpm_limit p.rpm_limit
        if env.createOk then
          (.ok ⟨true, some env.createResp, some "Virtual key creata con successo"⟩,
            [.createK pay])
        else (.error "Errore nella creazione della key", [.createK pay])
  | .absent =>
    match existing with
    | some k =>
      if p.check_mode then
        (.ok ⟨true, none, some "Virtual key eliminata con successo"⟩, [])
      else if env.deleteOk then
        (.ok ⟨true, none, some "Virtual key eliminata con successo"⟩,
          [.deleteK [jOptStr (keyIdOf k)]])
      else (.error "Errore nell\x27eliminazione della key", [.deleteK [jOptStr (keyIdOf k)]])
    | none => (.ok ⟨false, none, some "Virtual key non trovata, nessuna azione necessaria"⟩, [])

/-- Embeds `litellm_virtual_key.main`. -/
def keyMain (p : KeyParams) (env : KeyEnv) :
    Except String KeyResult × List KeyWrite :=
  match resolveKey p env with
  | .error e => (.error e, [])
  | .ok existing => keyAct p env existing

/-! ## Raw listing-response handling (`get_team_by_name`, `get_key_by_alias`)

These work on the parsed JSON body of the listing endpoint, exactly as the
Python code does, so that the accepted response shapes can be analysed. -/

/-- Python `team.get(k) == n` / `key.get(k) == n` on a JSON object. -/
def jGetEqStr (k : String) (kvs : List (String × JVal)) (n : String) : Bool :=
  match jlookup k kvs with
  | some v => jeq v (.str n)
  | none => false

/-- The `for team in teams` loop of `get_team_by_name`: first entry whose
`team_alias` or `team_name` equals `n`.  A non-dict entry raises
(`team.get` on a non-dict is an `AttributeError`). -/
def scanTeams (n : String) : List JVal → Except String (Option JVal)
  | [] => .ok none
  | .obj kvs :: rest =>
    if jGetEqStr "team_alias" kvs n || jGetEqStr "team_name" kvs n then
      .ok (some (.obj kvs))
    else scanTeams n rest
  | _ :: _ => .error "AttributeError"

/-- Embeds `get_team_by_name` applied to the parsed body of `GET /team/list`:
a bare list is scanned directly; a dict is scanned via `data.get(..)` of `teams`
(a missing key defaults to the empty listing); any other shape raises when
`data.get` is called on it. -/
def getTeamByName (data : JVal) (n : String) : Except String (Option JVal) :=
  match data with
  | .arr xs => scanTeams n xs
  | .obj kvs =>
    match jlookup "teams" kvs with
    | none => scanTeams n []
    | some (.arr xs) => scanTeams n xs
    | some (.str s) => if s == "" then .ok none else .error "AttributeError"
    | some (.obj kvs2) => if kvs2.isEmpty then .ok none else .error "AttributeError"
    | some _ => .error "TypeError"
  | _ => .error "AttributeError"

/-- The `for key in keys` loop of `get_key_by_alias`: non-dict entries are
skipped by the `isinstance(key, dict)` guard. -/
def scanKeys (n : String) : List JVal → Option JVal
  | [] => none
  | .obj kvs :: rest =>
    if jGetEqStr "key_alias" kvs n || jGetEqStr "key_name" kvs n then
      some (.obj kvs)
    else scanKeys n rest
  | _ :: rest => scanKeys n rest

/-- Embeds `get_key_by_alias` applied to the parsed body of `GET /key/list`:
a bare list is scanned; a dict is scanned via `data.get(..)` of `keys`; a
non-list non-dict body is an explicit `fail_json`.  When the `keys` value
yields a string or dict, iterating it produces non-dict items that the
`isinstance` guard skips (so: not found); a non-iterable value raises. -/
def getKeyByAlias (data : JVal) (n : String) : Except String (Option JVal) :=
  match data with
  | .arr xs => .ok (scanKeys n xs)
  | .obj kvs =>
    match jlookup "keys" kvs with
    | none => .ok (scanKeys n [])
    | some (.arr xs) => .ok (scanKeys n xs)
    | some (.str _) => .ok none
    | some (.obj _) => .ok none
    | some _ => .error "TypeError"
  | _ => .error "Risposta API non valida per /key/list"

/-! ## litellm_endpoint -/

/-- The `litellm_params` dict of a model entry. -/
structure LParams where
  model : Option String := none
  api_base : Option JVal := none
  api_key : Option String := none
  api_version : Option String := none

/-- One entry of the `data` list of `GET /model/info` (also the body of
`POST /model/new`). -/
structure ModelEntry where
  model_name : Option String := none
  litellm_params : Option LParams := none
  model_info : Option (List (String × JVal)) := none

/-- Python `s.split(sep)` on the character list of a string. -/
def pySplitChar (sep : Char) : List Char → List (List Char)
  | [] => [[]]
  | c :: cs =>
    if c = sep then [] :: pySplitChar sep cs
    else
      match pySplitChar sep cs with
      | [] => [[c]]
      | h :: t => (c :: h) :: t

/-- Embeds `LiteLLMEndpointManager._extract_provider`: the part of
the model identifier before the first `/`, or `"unknown"`
when there is no `/`. -/
def extractProvider (lp : LParams) : String :=
  let m := lp.model.getD ""
  if m.toList.contains '/' then String.mk ((pySplitChar '/' m.toList).headD [])
  else "unknown"

/-- The canonical endpoint view built by `get_endpoints`. -/
structure EndpointInfo where
  endpoint_name : String
  api_base : JVal
  provider : String
  metadata : List (String × JVal)

/-- The classification loop of `get_endpoints` over the `data` list: entries whose
`litellm_params` contains `api_base` are considered endpoints. -/
def getEndpoints (entries : List ModelEntry) : List EndpointInfo :=
  entries.filterMap fun m =>
    match m.litellm_params with
    | some lp =>
      match lp.api_base with
      | some ab =>
        some ⟨m.model_name.getD "unknown", ab, extractProvider lp, m.model_info.getD []⟩
      | none => none
    | none => none

/-- Embeds `get_endpoint`: first classified endpoint with the requested name. -/
def getEndpoint (name : String) (entries : List ModelEntry) : Option EndpointInfo :=
  (getEndpoints entries).find? (fun e => e.endpoint_name == name)

/-- Python `d[k] = v` on a dict with insertion order: overwrite in place if
the key exists, else append. -/
def pyDictSet (kvs : List (String × JVal)) (k : String) (v : JVal) :
    List (String × JVal) :=
  if kvs.any (fun kv => kv.1 == k) then
    kvs.map (fun kv => if kv.1 == k then (k, v) else kv)
  else kvs ++ [(k, v)]

/-- The `POST /model/new` body built by `create_endpoint`: a model named
after the endpoint, whose identifier is `provider + "/endpoint-" + name`,
with `api_base` set and the `managed_endpoint` marker in `model_info`. -/
def createEndpointEntry (endpoint_name api_base provider : String)
    (api_key api_version : Option String)
    (metadata : Option (List (String × JVal))) : ModelEntry :=
  { model_name := some endpoint_name
    litellm_params := some
      { model := some (provider ++ "/endpoint-" ++ endpoint_name)
        api_base := some (.str api_base)
        api_key := if truthyStr api_key then api_key else none
        api_version := if truthyStr api_version then api_version else none }
    model_info := some (pyDictSet (metadata.getD []) "endpoint_type" (.str "managed_endpoint")) }

/-- Write requests the endpoint module can issue. -/
inductive EndpointWrite : Type
  | createE (entry : ModelEntry)

/-- Module parameters of `litellm_endpoint`. -/
structure EndpointParams where
  endpoint_name : String
  api_base : Option String := none
  provider : Option String := none
  endpoint_api_key : Option String := none
  api_version : Option String := none
  metadata : Option (List (String × JVal)) := some []
  state : RState := .present
  check_mode : Bool := false

/-- Remote responses the endpoint module may receive.  `entries = none`
models a `/model/info` body without a `data` key. -/
structure EndpointEnv where
  listOk : Bool := true
  entries : Option (List ModelEntry) := some []
  listAfterOk : Bool := true
  entriesAfter : Option (List ModelEntry) := some []
  createOk : Bool := true

/-- The fixed advisory `delete_endpoint` passes to `fail_json`. -/
def endpointDeleteAdvisory : String :=
  "Eliminazione endpoint non supportata direttamente dall\x27API. Rimuovi l\x27endpoint dal file di configurazione config.yaml"

/-- Reported result of a successful `litellm_endpoint` run. -/
structure EndpointResult where
  changed : Bool
  message : String
  endpoint : Option EndpointInfo

/-- Embeds `litellm_endpoint.main`.  Note: the module declares
`supports_check_mode=True` but `main` never consults `module.check_mode`;
`delete_endpoint` calls `fail_json`, a `SystemExit` that the surrounding
`except Exception` does not catch. -/
def endpointMain (p : EndpointParams) (env : EndpointEnv) :
    Except String EndpointResult × List EndpointWrite :=
  match p.state with
  | .present =>
    if !(truthyStr p.api_base) || !(truthyStr p.provider) then
      (.error "api_base e provider sono richiesti quando state è \x27present\x27", [])
    else if !env.listOk then (.error "Errore nel recupero degli endpoint", [])
    else
      match getEndpoint p.endpoint_name (env.entries.getD []) with
      | some _ =>
        if !env.listAfterOk then (.error "Errore nel recupero degli endpoint", [])
        else
          (.ok ⟨false, "Endpoint \x27" ++ p.endpoint_name ++ "\x27 già esistente",
            getEndpoint p.endpoint_name (env.entriesAfter.getD [])⟩, [])
      | none =>
        let entry := createEndpointEntry p.endpoint_name (p.api_base.getD "")
          (p.provider.getD "") p.endpoint_api_key p.api_version p.metadata
        if env.createOk then
          if !env.listAfterOk then
            (.error "Errore nel recupero degli endpoint", [.createE entry])
          else
            (.ok ⟨true, "Endpoint \x27" ++ p.endpoint_name ++ "\x27 creato con successo",
              getEndpoint p.endpoint_name (env.entriesAfter.getD [])⟩, [.createE entry])
        else (.error "Errore nella creazione dell\x27endpoint", [.createE entry])
  | .absent =>
    if !env.listOk then (.error "Errore nel recupero degli endpoint", [])
    else
      match getEndpoint p.endpoint_name (env.entries.getD []) with
      | some _ => (.error endpointDeleteAdvisory, [])
      | none =>
        (.ok ⟨false, "Endpoint \x27" ++ p.endpoint_name ++ "\x27 non trovato", none⟩, [])

/-! ## litellm_model -/

/-- Python truthiness of an optional dict parameter (`if not litellm_params:`,
`if model_info:`). -/
def truthyObjL : Option (List (String × JVal)) → Bool
  | none => false
  | some kvs => !kvs.isEmpty

/-- Embeds `get_model`: scan the `data` list (if present) by `model_name`. -/
def getModel (name : String) (entries : Option (List ModelEntry)) : Option ModelEntry :=
  match entries with
  | some l => l.find? (fun m => m.model_name == some name)
  | none => none

/-- Wire body of `create_model` (`POST /model/new`). -/
def createModelPayload (model_name : String)
    (litellm_params : Option (List (String × JVal)))
    (model_info : Option (List (String × JVal))) : List (String × JVal) :=
  [("model_name", .str model_name), ("litellm_params", .obj (litellm_params.getD []))]
  ++ pfield (truthyObjL model_info) "model_info" (.obj (model_info.getD []))

/-- Write requests the model module can issue. -/
inductive ModelWrite : Type
  | createM (payload : List (String × JVal))

/-- Module parameters of `litellm_model`. -/
structure ModelParams where
  model_name : String
  litellm_params : Option (List (String × JVal)) := none
  model_info : Option (List (String × JVal)) := some []
  state : RState := .present
  check_mode : Bool := false

/-- Remote responses the model module may receive. -/
structure ModelEnv where
  listOk : Bool := true
  entries : Option (List ModelEntry) := some []
  listAfterOk : Bool := true
  entriesAfter : Option (List ModelEntry) := some []
  createOk : Bool := true

/-- The fixed advisory `delete_model` passes to `fail_json`. -/
def modelDeleteAdvisory : String :=
  "Eliminazione modelli non supportata direttamente dall\x27API. Rimuovi il modello dal file di configurazione config.yaml"

/-- Reported result of a successful `litellm_model` run. -/
structure ModelResult where
  changed : Bool
  message : String
  model : Option ModelEntry

/-- Embeds `litellm_model.main`.  Like the endpoint module it declares
`supports_check_mode=True` yet never consults `module.check_mode`. -/
def modelMain (p : ModelParams) (env : ModelEnv) :
    Except String ModelResult × List ModelWrite :=
  match p.state with
  | .present =>
    if !(truthyObjL p.litellm_params) then
      (.error "litellm_params è richiesto quando state è \x27present\x27", [])
    else if !env.listOk then (.error "Errore nel recupero dei modelli", [])
    else
      match getModel p.model_name env.entries with
      | some _ =>
        if !env.listAfterOk then (.error "Errore nel recupero dei modelli", [])
        else
          (.ok ⟨false, "Modello \x27" ++ p.model_name ++ "\x27 già esistente",
            getModel p.model_name env.entriesAfter⟩, [])
      | none =>
        let pay := createModelPayload p.model_name p.litellm_params p.model_info
        if env.createOk then
          if !env.listAfterOk then
            (.error "Errore nel recupero dei modelli", [.createM pay])
          else
            (.ok ⟨true, "Modello \x27" ++ p.model_name ++ "\x27 creato con successo",
              getModel p.model_name env.entriesAfter⟩, [.createM pay])
        else (.error "Errore nella creazione del modello", [.createM pay])
  | .absent =>
    if !env.listOk then (.error "Errore nel recupero dei modelli", [])
    else
      match getModel p.model_name env.entries with
      | some _ => (.error modelDeleteAdvisory, [])
      | none =>
        (.ok ⟨false, "Modello \x27" ++ p.model_name ++ "\x27 non trovato", none⟩, [])

/-! ## Theorems -/

/-- Claim C1: Reconciliation follows the decision table in both the team and
the virtual-key module: with intent `present`, no existing resource gives
Create with `changed=true`; an existing resource with no declared field
differing gives no write and `changed=false`; a differing declared field
gives Update with `changed=true`.  With intent `absent`, a nonexistent
resource gives no action and `changed=false`, an existing one gives Delete
with `changed=true`.  (Live mode, successful write responses.) -/
theorem claim1_decision_table :
    (∀ (p : TeamParams) (env : TeamEnv), p.state = .present → p.check_mode = false →
      env.createOk = true → resolveTeam p env = .ok none →
      teamMain p env = (.ok ⟨true, some env.createResp, some "Team creato con successo"⟩,
        [TeamWrite.createT (createTeamPayload p.name p.metadata p.max_budget p.models)])) ∧
    (∀ (p : TeamParams) (env : TeamEnv) (t : Team), p.state = .present →
      resolveTeam p env = .ok (some t) →
      team_needs_update t p.name p.metadata p.max_budget p.models = false →
      teamMain p env =
        (.ok ⟨false, some t, some "Team già esistente con le configurazioni richieste"⟩, [])) ∧
    (∀ (p : TeamParams) (env : TeamEnv) (t : Team), p.state = .present →
      p.check_mode = false → env.updateOk = true → resolveTeam p env = .ok (some t) →
      team_needs_update t p.name p.metadata p.max_budget p.models = true →
      teamMain p env = (.ok ⟨true, some env.updateResp, some "Team aggiornato con successo"⟩,
        [TeamWrite.updateT (updateTeamPayload t.team_id p.name p.metadata p.max_budget p.models)])) ∧
    (∀ (p : TeamParams) (env : TeamEnv), p.state = .absent →
      resolveTeam p env = .ok none →
      teamMain p env =
        (.ok ⟨false, none, some "Team non trovato, nessuna azione necessaria"⟩, [])) ∧
    (∀ (p : TeamParams) (env : TeamEnv) (t : Team), p.state = .absent →
      p.check_mode = false → env.deleteOk = true → resolveTeam p env = .ok (some t) →
      teamMain p env = (.ok ⟨true, none, some "Team eliminato con successo"⟩,
        [TeamWrite.deleteT [jOptStr t.team_id]])) ∧
    (∀ (p : KeyParams) (env : KeyEnv), p.state = .present → p.check_mode = false →
      env.createOk = true → resolveKey p env = .ok none →
      keyMain p env = (.ok ⟨true, some env.createResp, some "Virtual key creata con successo"⟩,
        [KeyWrite.createK (createKeyPayload p.key_alias p.team_id p.models p.max_budget
          p.budget_duration p.metadata p.expires p.max_parallel_requests
          p.tpm_limit p.rpm_limit)])) ∧
    (∀ (p : KeyParams) (env : KeyEnv) (k : Key), p.state = .present →
      resolveKey p env = .ok (some k) →
      key_needs_update k p.key_alias p.team_id p.models p.max_budget
        p.budget_duration p.metadata p.expires p.max_parallel_requests
        p.tpm_limit p.rpm_limit = false →
      keyMain p env =
        (.ok ⟨false, some k, some "Virtual key già esistente con le configurazioni richieste"⟩, [])) ∧
    (∀ (p : KeyParams) (env : KeyEnv) (k : Key), p.state = .present →
      p.check_mode = false → env.updateOk = true → resolveKey p env = .ok (some k) →
      key_needs_update k p.key_alias p.team_id p.models p.max_budget
        p.budget_duration p.metadata p.expires p.max_parallel_requests
        p.tpm_limit p.rpm_limit = true →
      keyMain p env =
        (.ok ⟨true, some env.updateResp, some "Virtual key aggiornata con successo"⟩,
          [KeyWrite.updateK (updateKeyPayload (keyIdOf k) p.key_alias p.team_id p.models
            p.max_budget p.budget_duration p.metadata p.expires p.max_parallel_requests
            p.tpm_limit p.rpm_limit)])) ∧
    (∀ (p : KeyParams) (env : KeyEnv), p.state = .absent →
      resolveKey p env = .ok none →
      keyMain p env =
        (.ok ⟨false, none, some "Virtual key non trovata, nessuna azione necessaria"⟩, [])) ∧
    (∀ (p : KeyParams) (env : KeyEnv) (k : Key), p.state = .absent →
      p.check_mode = false → env.deleteOk = true → resolveKey p env = .ok (some k) →
      keyMain p env = (.ok ⟨true, none, some "Virtual key eliminata con successo"⟩,
        [KeyWrite.deleteK [jOptStr (keyIdOf k)]])) := by
  refine ⟨?_, ?_, ?_, ?_, ?_, ?_, ?_, ?_, ?_, ?_⟩
  · intro p env hs hc hok hres
    unfold teamMain; rw [hres]; simp [teamAct, hs, hc, hok]
  · intro p env t hs hres hnu
    unfold teamMain; rw [hres]; simp [teamAct, hs, hnu]
  · intro p env t hs hc hok hres hnu
    unfold teamMain; rw [hres]; simp [teamAct, hs, hc, hok, hnu]
  · intro p env hs hres
    unfold teamMain; rw [hres]; simp [teamAct, hs]
  · intro p env t hs hc hok hres
    unfold teamMain; rw [hres]; simp [teamAct, hs, hc, hok]
  · intro p env hs hc hok hres
    unfold keyMain; rw [hres]; simp [keyAct, hs, hc, hok]
  · intro p env k hs hres hnu
    unfold keyMain; rw [hres]; simp [keyAct, hs, hnu]
  · intro p env k hs hc hok hres hnu
    unfold keyMain; rw [hres]; simp [keyAct, hs, hc, hok, hnu]
  · intro p env hs hres
    unfold keyMain; rw [hres]; simp [keyAct, hs]
  · intro p env k hs hc hok hres
    unfold keyMain; rw [hres]; simp [keyAct, hs, hc, hok]

/-- Concrete run used to instantiate the decision table: `present`, lookup by
name finds nothing, live mode. -/
def c1Params : TeamParams :=
  { name := some "team-x", max_budget := some 100, state := .present, check_mode := false }

/-- Environment for `c1Params`: empty remote listing. -/
def c1Env : TeamEnv := { byId := fun _ => .notFound }

theorem claim1_decision_table_witness :
    teamMain c1Params c1Env =
      (.ok ⟨true, some c1Env.createResp, some "Team creato con successo"⟩,
        [TeamWrite.createT (createTeamPayload c1Params.name c1Params.metadata
          c1Params.max_budget c1Params.models)]) :=
  claim1_decision_table.1 c1Params c1Env rfl rfl rfl rfl

/-- The endpoint run that exhibits the check-mode defect: check mode on,
`state=present`, endpoint absent remotely. -/
def c2Params : EndpointParams :=
  { endpoint_name := "ep1", api_base := some "http://litellm.local",
    provider := some "openai", state := .present, check_mode := true }

/-- Environment for `c2Params`: empty remote model listing, create succeeds. -/
def c2Env : EndpointEnv := {}

/-- Claim C2: Refuted by the code: `litellm_endpoint.main` (and likewise
`litellm_model.main`) declares `supports_check_mode=True` but never consults
`module.check_mode`, so a check-mode run with a missing endpoint still issues
the `POST /model/new` create request.  (The team and key modules do guard
every write with `if not module.check_mode`.) -/
theorem claim2_check_mode_still_creates :
    c2Params.check_mode = true ∧
    (endpointMain c2Params c2Env).2 =
      [EndpointWrite.createE
        (createEndpointEntry "ep1" "http://litellm.local" "openai" none none (some []))] :=
  ⟨rfl, rfl⟩

/-- The remote team of the partial-field example: has a `models` field the
desired state does not mention. -/
def c3Team : Team :=
  { team_id := some "t1", team_alias := some "team-x", metadata := some (.obj []),
    max_budget := some 1000, models := some ["gpt-4"] }

/-- Desired state for the partial-field example: same budget, `models`
absent. -/
def c3Params : TeamParams :=
  { team_id := some "t1", name := some "team-x", metadata := some (.obj []),
    max_budget := some 1000, models := none, state := .present, check_mode := false }

/-- Environment for `c3Params`. -/
def c3Env : TeamEnv :=
  { byId := fun i => if i == "t1" then .found c3Team else .notFound }

/-- Claim C3: A field that is absent (unset) in the desired state never causes
needs-update: whenever every declared field agrees with the remote team,
`team_needs_update` is `false` no matter what the remote values of the
undeclared fields are; and in particular a desired state declaring only the
budget against a remote team that also has `models` decides NoOp with
`changed=false` and no write. -/
theorem claim3_absent_fields_inert :
    (∀ (t : Team) (name : Option String) (md : Option JVal) (mb : Option Rat)
      (ms : Option (List String)),
      (truthyStr name = true → t.team_alias = name) →
      (md.isSome = true → jeqOpt t.metadata md = true) →
      (mb.isSome = true → t.max_budget = mb) →
      (ms.isSome = true → setEqStr (t.models.getD []) (ms.getD []) = true) →
      team_needs_update t name md mb ms = false) ∧
    teamMain c3Params c3Env =
      (.ok ⟨false, some c3Team, some "Team già esistente con le configurazioni richieste"⟩, []) := by
  constructor
  · intro t name md mb ms h1 h2 h3 h4
    have hA : (truthyStr name && !(t.team_alias == name)) = false := by
      cases htr : truthyStr name with
      | false => simp
      | true => simp [h1 htr]
    have hB : (md.isSome && !(jeqOpt t.metadata md)) = false := by
      cases hmd : md.isSome with
      | false => simp
      | true => simp [h2 hmd]
    have hC : (mb.isSome && !(t.max_budget == mb)) = false := by
      cases hmb : mb.isSome with
      | false => simp
      | true => simp [h3 hmb]
    have hD : (ms.isSome && !(setEqStr (t.models.getD []) (ms.getD []))) = false := by
      cases hms : ms.isSome with
      | false => simp
      | true => simp [h4 hms]
    simp [team_needs_update, hA, hB, hC, hD]
  · simp [teamMain, resolveTeam, c3Params, c3Env, truthyStr, teamAct, team_needs_update,
      resolveTeamByName, jeqOpt, jeq, jeqObjSub, setEqStr, jOptStr, c3Team]

theorem claim3_absent_fields_inert_witness :
    team_needs_update c3Team (some "team-x") (some (.obj [])) (some 1000) none = false :=
  claim3_absent_fields_inert.1 c3Team (some "team-x") (some (.obj [])) (some 1000) none
    (fun _ => rfl) (fun _ => by simp [jeqOpt, jeq, jeqObjSub, c3Team]) (fun _ => rfl)
    (fun h => Bool.noConfusion h)

/-- Claim C4 (amended): For the endpoint and model kinds, intent `absent`
against an existing remote resource issues no delete HTTP call, but it does
not complete as a non-error outcome: `delete_endpoint` / `delete_model` pass
the fixed advisory message to `fail_json`, so the module run fails with that
message (the `except Exception` clause does not catch the `SystemExit`). -/
theorem claim4_delete_unsupported_fails :
    (∀ (p : EndpointParams) (env : EndpointEnv) (e : EndpointInfo),
      p.state = .absent → env.listOk = true →
      getEndpoint p.endpoint_name (env.entries.getD []) = some e →
      endpointMain p env = (.error endpointDeleteAdvisory, [])) ∧
    (∀ (p : ModelParams) (env : ModelEnv) (m : ModelEntry),
      p.state = .absent → env.listOk = true →
      getModel p.model_name env.entries = some m →
      modelMain p env = (.error modelDeleteAdvisory, [])) := by
  constructor
  · intro p env e hs hok hex
    simp [endpointMain, hs, hok, hex]
  · intro p env m hs hok hex
    simp [modelMain, hs, hok, hex]

/-- The model entry backing the existing endpoint `ep1`. -/
def c4Entry : ModelEntry :=
  { model_name := some "ep1",
    litellm_params := some
      { model := some "openai/endpoint-ep1", api_base := some (.str "http://litellm.local") },
    model_info := some [] }

/-- Intent `absent` on the existing endpoint `ep1`. -/
def c4Params : EndpointParams := { endpoint_name := "ep1", state := .absent }

/-- Environment for `c4Params`: the listing contains `ep1`. -/
def c4Env : EndpointEnv := { entries := some [c4Entry] }

theorem claim4_counterexample :
    endpointMain c4Params c4Env = (.error endpointDeleteAdvisory, []) := rfl

/-- An existing remote model `m1`. -/
def c4mEntry : ModelEntry :=
  { model_name := some "m1", litellm_params := some { model := some "gpt-4" },
    model_info := some [] }

/-- Intent `absent` on the existing model `m1`. -/
def c4mParams : ModelParams := { model_name := "m1", state := .absent }

/-- Environment for `c4mParams`. -/
def c4mEnv : ModelEnv := { entries := some [c4mEntry] }

theorem claim4_delete_unsupported_fails_witness :
    modelMain c4mParams c4mEnv = (.error modelDeleteAdvisory, []) :=
  claim4_delete_unsupported_fails.2 c4mParams c4mEnv c4mEntry rfl rfl rfl

/-- Claim C5: Every binding of an update wire payload is either the stable
identifier (`team_id` / `key`) or a field that is non-absent in the desired
state; a `None`/unset field is never included (for both the team and the
virtual-key module). -/
theorem claim5_update_payload_only_declared :
    (∀ (tid name : Option String) (md : Option JVal) (mb : Option Rat)
      (ms : Option (List String)) (k : String) (v : JVal),
      (k, v) ∈ updateTeamPayload tid name md mb ms →
      k = "team_id" ∨ (k = "team_alias" ∧ truthyStr name = true) ∨
      (k = "metadata" ∧ md.isSome = true) ∨ (k = "max_budget" ∧ mb.isSome = true) ∨
      (k = "models" ∧ ms.isSome = true)) ∧
    (∀ (kid ka tid : Option String) (ms : Option (List String)) (mb : Option Rat)
      (bd : Option String) (md : Option JVal) (ex : Option String)
      (mpr tpm rpm : Option Int) (k : String) (v : JVal),
      (k, v) ∈ updateKeyPayload kid ka tid ms mb bd md ex mpr tpm rpm →
      k = "key" ∨ (k = "key_alias" ∧ truthyStr ka = true) ∨
      (k = "team_id" ∧ truthyStr tid = true) ∨ (k = "models" ∧ ms.isSome = true) ∨
      (k = "max_budget" ∧ mb.isSome = true) ∨
      (k = "budget_duration" ∧ truthyStr bd = true) ∨
      (k = "metadata" ∧ md.isSome = true) ∨ (k = "expires" ∧ truthyStr ex = true) ∨
      (k = "max_parallel_requests" ∧ mpr.isSome = true) ∨
      (k = "tpm_limit" ∧ tpm.isSome = true) ∨ (k = "rpm_limit" ∧ rpm.isSome = true)) := by
  constructor
  · intro tid name md mb ms k v h
    simp only [updateTeamPayload, List.mem_append, List.mem_singleton,
      Prod.mk.injEq] at h
    rcases h with ((((⟨h1, _⟩ | h) | h) | h) | h)
    · exact Or.inl h1
    · exact Or.inr (Or.inl (mem_pfield h))
    · exact Or.inr (Or.inr (Or.inl (mem_pfield h)))
    · exact Or.inr (Or.inr (Or.inr (Or.inl (mem_pfield h))))
    · exact Or.inr (Or.inr (Or.inr (Or.inr (mem_pfield h))))
  · intro kid ka tid ms mb bd md ex mpr tpm rpm k v h
    simp only [updateKeyPayload, List.mem_append, List.mem_singleton,
      Prod.mk.injEq] at h
    rcases h with ((((((((((⟨h1, _⟩ | h) | h) | h) | h) | h) | h) | h) | h) | h) | h)
    · exact Or.inl h1
    · exact Or.inr (Or.inl (mem_pfield h))
    · exact Or.inr (Or.inr (Or.inl (mem_pfield h)))
    · exact Or.inr (Or.inr (Or.inr (Or.inl (mem_pfield h))))
    · exact Or.inr (Or.inr (Or.inr (Or.inr (Or.inl (mem_pfield h)))))
    · exact Or.inr (Or.inr (Or.inr (Or.inr (Or.inr (Or.inl (mem_pfield h))))))
    · exact Or.inr (Or.inr (Or.inr (Or.inr (Or.inr (Or.inr (Or.inl (mem_pfield h)))))))
    · exact Or.inr (Or.inr (Or.inr (Or.inr (Or.inr (Or.inr (Or.inr
        (Or.inl (mem_pfield h))))))))
    · exact Or.inr (Or.inr (Or.inr (Or.inr (Or.inr (Or.inr (Or.inr (Or.inr
        (Or.inl (mem_pfield h)))))))))
    · exact Or.inr (Or.inr (Or.inr (Or.inr (Or.inr (Or.inr (Or.inr (Or.inr (Or.inr
        (Or.inl (mem_pfield h))))))))))
    · exact Or.inr (Or.inr (Or.inr (Or.inr (Or.inr (Or.inr (Or.inr (Or.inr (Or.inr
        (Or.inr (mem_pfield h))))))))))

theorem claim5_update_payload_only_declared_witness :
    "team_alias" = "team_id" ∨
    ("team_alias" = "team_alias" ∧ truthyStr (some "team-x") = true) ∨
    ("team_alias" = "metadata" ∧ (none : Option JVal).isSome = true) ∨
    ("team_alias" = "max_budget" ∧ (none : Option Rat).isSome = true) ∨
    ("team_alias" = "models" ∧ (none : Option (List String)).isSome = true) :=
  claim5_update_payload_only_declared.1 (some "t1") (some "team-x") none none none
    "team_alias" (.str "team-x")
    (by simp [updateTeamPayload, pfield, truthyStr, jOptStr])

/-- Claim C6 (amended): When a truthy stable ID is supplied, identity
resolution uses only the ID lookup: the secondary key and the listing are
ignored entirely (so a disagreement between the two signals is silently
resolved in favour of the ID — no error is reported).  Holds for both the
team and the virtual-key module. -/
theorem claim6_stable_id_precedence :
    (∀ (p : TeamParams) (env env2 : TeamEnv) (n1 n2 : Option String),
      truthyStr p.team_id = true → env.byId = env2.byId →
      resolveTeam { p with name := n1 } env = resolveTeam { p with name := n2 } env2) ∧
    (∀ (p : KeyParams) (env env2 : KeyEnv) (a1 a2 : Option String),
      truthyStr p.key_id = true → env.byId = env2.byId →
      resolveKey { p with key_alias := a1 } env = resolveKey { p with key_alias := a2 } env2) := by
  constructor
  · intro p env env2 n1 n2 h hby
    simp only [resolveTeam]
    simp [h, hby]
  · intro p env env2 a1 a2 h hby
    simp only [resolveKey]
    simp [h, hby]

/-- The team found by the stable-ID lookup (`t1`). -/
def c6TeamA : Team := { team_id := some "t1", team_alias := some "other" }

/-- The team the secondary key identifies (`t2`). -/
def c6TeamB : Team := { team_id := some "t2", team_alias := some "team-x" }

/-- Both identity signals supplied, and they disagree. -/
def c6Params : TeamParams :=
  { team_id := some "t1", name := some "team-x", state := .present }

/-- Environment for `c6Params`: ID lookup and listing scan identify
different teams. -/
def c6Env : TeamEnv :=
  { byId := fun i => if i == "t1" then .found c6TeamA else .notFound,
    listing := [c6TeamB] }

theorem claim6_counterexample :
    resolveTeam c6Params c6Env = .ok (some c6TeamA) ∧
    resolveTeamByName c6Env.listing "team-x" = some c6TeamB ∧
    c6TeamA.team_id ≠ c6TeamB.team_id :=
  ⟨rfl, rfl, by decide⟩

theorem claim6_stable_id_precedence_witness :
    resolveTeam { c6Params with name := some "team-x" } c6Env =
      resolveTeam { c6Params with name := none } c6Env :=
  claim6_stable_id_precedence.1 c6Params c6Env c6Env (some "team-x") none rfl rfl

/-- Claim C7 (amended): The listing scans accept both the bare-list shape and
the wrapped shape of the kind (a dict with a `teams` / `keys` list) and
return the same scan result for both; but a dict lacking the container key
is treated as an empty listing — i.e. "not found", not a resolution error —
and only a non-list non-dict body is an error (an explicit `fail_json` for
keys, an uncaught `AttributeError` for teams). -/
theorem claim7_listing_shapes :
    (∀ (xs : List JVal) (n : String),
      getTeamByName (.arr xs) n = scanTeams n xs ∧
      getTeamByName (.obj [("teams", .arr xs)]) n = scanTeams n xs) ∧
    (∀ (xs : List JVal) (n : String),
      getKeyByAlias (.arr xs) n = .ok (scanKeys n xs) ∧
      getKeyByAlias (.obj [("keys", .arr xs)]) n = .ok (scanKeys n xs)) ∧
    (∀ (kvs : List (String × JVal)) (n : String), jlookup "teams" kvs = none →
      getTeamByName (.obj kvs) n = .ok none) ∧
    (∀ (kvs : List (String × JVal)) (n : String), jlookup "keys" kvs = none →
      getKeyByAlias (.obj kvs) n = .ok none) ∧
    (∀ (n : String) (q : Rat),
      getKeyByAlias (.num q) n = .error "Risposta API non valida per /key/list") := by
  refine ⟨?_, ?_, ?_, ?_, ?_⟩
  · intro xs n; exact ⟨rfl, rfl⟩
  · intro xs n; exact ⟨rfl, rfl⟩
  · intro kvs n h; simp [getTeamByName, h, scanTeams]
  · intro kvs n h; simp [getKeyByAlias, h, scanKeys]
  · intro n q; rfl

/-- A listing entry whose alias is `team-x`, as raw JSON. -/
def c7TeamJ : JVal := .obj [("team_alias", .str "team-x"), ("team_id", .str "t1")]

theorem claim7_counterexample :
    getTeamByName (.obj [("items", .arr [c7TeamJ])]) "team-x" = .ok none ∧
    getTeamByName (.arr [c7TeamJ]) "team-x" = .ok (some c7TeamJ) :=
  ⟨rfl, by simp [getTeamByName, scanTeams, jGetEqStr, jlookup, jeq, c7TeamJ]⟩

theorem claim7_listing_shapes_witness :
    getTeamByName (.obj [("items", .arr [c7TeamJ])]) "zzz" = .ok none :=
  claim7_listing_shapes.2.2.1 [("items", .arr [c7TeamJ])] "zzz" rfl

/-- Claim C9: List-typed fields are compared as sets: when the desired models
list has the same set of elements as the remote one (any order), the models
field does not trigger an update — with only `models` declared,
needs-update is `false` for both the team and the virtual-key module. -/
theorem claim9_models_set_equality :
    (∀ (t : Team) (l : List String), (∀ x, x ∈ l ↔ x ∈ t.models.getD []) →
      team_needs_update t none none none (some l) = false) ∧
    (∀ (k : Key) (l : List String), (∀ x, x ∈ l ↔ x ∈ k.models.getD []) →
      key_needs_update k none none (some l) none none none none none none none = false) := by
  constructor
  · intro t l h
    have hset : setEqStr (t.models.getD []) l = true := by
      simp only [setEqStr, Bool.and_eq_true, List.all_eq_true]
      exact ⟨fun x hx => List.elem_eq_true_of_mem ((h x).mpr hx),
        fun x hx => List.elem_eq_true_of_mem ((h x).mp hx)⟩
    simp [team_needs_update, truthyStr, hset]
  · intro k l h
    have hset : setEqStr (k.models.getD []) l = true := by
      simp only [setEqStr, Bool.and_eq_true, List.all_eq_true]
      exact ⟨fun x hx => List.elem_eq_true_of_mem ((h x).mpr hx),
        fun x hx => List.elem_eq_true_of_mem ((h x).mp hx)⟩
    simp [key_needs_update, truthyStr, hset]

/-- The remote team of the order-independence example. -/
def c9Team : Team := { team_id := some "t1", models := some ["gpt-4", "gpt-3.5"] }

theorem claim9_models_set_equality_witness :
    team_needs_update c9Team none none none (some ["gpt-3.5", "gpt-4"]) = false :=
  claim9_models_set_equality.1 c9Team ["gpt-3.5", "gpt-4"]
    (by intro x; simp [c9Team]; tauto)

/-- Claim C8 (amended): When a present-intent desired state carries neither a
stable ID nor an alias, the virtual-key module does not fail fast: it skips
resolution entirely (`existing_key` stays `None`) and proceeds straight to
Create, issuing the `POST /key/generate` call with no configuration error. -/
theorem claim8_no_identity_creates :
    ∀ (p : KeyParams) (env : KeyEnv), p.key_id = none → p.key_alias = none →
      p.state = .present → p.check_mode = false → env.createOk = true →
      keyMain p env =
        (.ok ⟨true, some env.createResp, some "Virtual key creata con successo"⟩,
          [KeyWrite.createK (createKeyPayload p.key_alias p.team_id p.models p.max_budget
            p.budget_duration p.metadata p.expires p.max_parallel_requests
            p.tpm_limit p.rpm_limit)]) := by
  intro p env h1 h2 hs hc hok
  have hres : resolveKey p env = .ok none := by
    simp [resolveKey, h1, h2, truthyStr]
  unfold keyMain
  rw [hres]
  simp [keyAct, hs, hc, hok]

/-- Present intent with neither `key_id` nor `key_alias`. -/
def c8Params : KeyParams := { max_budget := some 50, state := .present, check_mode := false }

/-- Environment for `c8Params`. -/
def c8Env : KeyEnv := { byId := fun _ => .notFound }

theorem claim8_counterexample :
    (keyMain c8Params c8Env).1 =
      .ok ⟨true, some c8Env.createResp, some "Virtual key creata con successo"⟩ ∧
    (keyMain c8Params c8Env).2 = [KeyWrite.createK [("max_budget", .num 50)]] :=
  ⟨rfl, rfl⟩

theorem claim8_no_identity_creates_witness :
    keyMain c8Params c8Env =
      (.ok ⟨true, some c8Env.createResp, some "Virtual key creata con successo"⟩,
        [KeyWrite.createK (createKeyPayload c8Params.key_alias c8Params.team_id
          c8Params.models c8Params.max_budget c8Params.budget_duration c8Params.metadata
          c8Params.expires c8Params.max_parallel_requests c8Params.tpm_limit
          c8Params.rpm_limit)]) :=
  claim8_no_identity_creates c8Params c8Env rfl rfl rfl rfl rfl

theorem contains_slash_append (xs ys : List Char) :
    (xs ++ '/' :: ys).contains '/' = true :=
  List.elem_eq_true_of_mem (by simp)

theorem pySplitChar_append (xs ys : List Char) (h : '/' ∉ xs) :
    pySplitChar '/' (xs ++ '/' :: ys) = xs :: pySplitChar '/' ys := by
  induction xs with
  | nil => simp [pySplitChar]
  | cons c cs ih =>
    have hc : ¬ (c = '/') := fun e => h (by simp [e])
    have hcs : '/' ∉ cs := fun m => h (List.mem_cons_of_mem _ m)
    simp [pySplitChar, hc, ih hcs]

theorem extractProvider_recovers (lp : LParams) (prov : String) (s : List Char)
    (hm : lp.model = some (String.mk (prov.toList ++ '/' :: s)))
    (h : prov.toList.contains '/' = false) :
    extractProvider lp = prov := by
  have hnm : '/' ∉ prov.toList := by
    intro m
    rw [show prov.toList.contains '/' = prov.toList.elem '/' from rfl,
      List.elem_eq_true_of_mem m] at h
    exact Bool.noConfusion h
  unfold extractProvider
  rw [hm]
  show (if (prov.toList ++ '/' :: s).contains '/' = true then
    String.mk ((pySplitChar '/' (prov.toList ++ '/' :: s)).headD []) else "unknown") = prov
  rw [contains_slash_append, if_pos rfl, pySplitChar_append _ _ hnm]
  rfl

/-- Claim C10: For every provider not containing `/`, the create payload built
by `create_endpoint` carries the model identifier
`provider ++ "/endpoint-" ++ name` together with `api_base`, and a
subsequent `get_endpoints` pass over that entry classifies it as an
endpoint, reporting `endpoint_name` equal to the original name and
recovering exactly the original provider via `_extract_provider`. -/
theorem claim10_endpoint_roundtrip :
    ∀ (name ab prov : String) (ak av : Option String)
      (md : Option (List (String × JVal))),
      prov.toList.contains '/' = false →
      ((createEndpointEntry name ab prov ak av md).litellm_params.map
          (fun lp => lp.model) = some (some (prov ++ "/endpoint-" ++ name)) ∧
        (createEndpointEntry name ab prov ak av md).litellm_params.map
          (fun lp => lp.api_base) = some (some (.str ab))) ∧
      getEndpoints [createEndpointEntry name ab prov ak av md] =
        [⟨name, .str ab, prov,
          pyDictSet (md.getD []) "endpoint_type" (.str "managed_endpoint")⟩] := by
  intro name ab prov ak av md h
  refine ⟨⟨rfl, rfl⟩, ?_⟩
  have hmodel : (prov ++ "/endpoint-" ++ name) =
      String.mk (prov.toList ++ '/' :: ("endpoint-".data ++ name.data)) := by
    show String.mk ((prov.data ++ "/endpoint-".data) ++ name.data) = _
    rw [show ("/endpoint-".data : List Char) = '/' :: "endpoint-".data from rfl]
    rw [List.append_assoc]
    rfl
  have hprov : extractProvider
      { model := some (prov ++ "/endpoint-" ++ name), api_base := some (.str ab),
        api_key := if truthyStr ak then ak else none,
        api_version := if truthyStr av then av else none } = prov :=
    extractProvider_recovers _ prov ("endpoint-".data ++ name.data) (by rw [hmodel]) h
  simp only [getEndpoints, createEndpointEntry, List.filterMap]
  rw [hprov]
  rfl

/-- Concrete round-trip instance. -/
def c10Entry : ModelEntry :=
  createEndpointEntry "svc" "http://litellm.local" "azure" none none (some [])

theorem claim10_endpoint_roundtrip_witness :
    getEndpoints [c10Entry] =
      [⟨"svc", .str "http://litellm.local", "azure",
        pyDictSet [] "endpoint_type" (.str "managed_endpoint")⟩] :=
  (claim10_endpoint_roundtrip "svc" "http://litellm.local" "azure" none none
    (some []) rfl).2

end LitellmSpec
